import Mathlib

/-!
Verification development for the Apex Core Discord commerce bot.

The wallet/ledger persistence layer (`Database`) is embedded as a pure state
type with one Lean function per data-access method; the pagination logic of
the `/orders` and `/transactions` slash commands (src/cogs/orders.py) is
embedded as pure functions over the list of rows a user owns.

The `Database` class itself (apex_core/database.py) is not part of the
source tree that was provided; its methods are modelled from the
specification ("read balance, compare, write balance, insert row, insert
ledger entry", "filtering expired discounts by comparing a timestamp string
to now", "a linear scan with a tie-break on percent/expiry stored directly
in a query") and from the behaviour pinned down by src/tests/test_database.py.
Each such definition carries a doc comment starting "Modelled from the spec:".
-/

/-- A row of the `users` table: wallet balance and lifetime spend in cents. -/
structure User where
  discord_id : Nat
  wallet_balance_cents : Int
  total_lifetime_spent_cents : Int
deriving DecidableEq

/-- The `order_metadata` column: either an opaque JSON string passed through
by the caller, or the JSON object written by `create_manual_order`
(`{"manual_order": true, "product_name": ..., "notes": ...}`). -/
inductive OrderMeta where
  | raw (s : String)
  | manual (given_product_name : String) (given_notes : String)
deriving DecidableEq

/-- The `manual_order` field of the JSON metadata object. -/
def OrderMeta.manual_order : OrderMeta → Bool
  | .manual _ _ => true
  | .raw _ => false

/-- The `product_name` field of the JSON metadata object. -/
def OrderMeta.product_name : OrderMeta → Option String
  | .manual n _ => some n
  | .raw _ => none

/-- The `notes` field of the JSON metadata object. -/
def OrderMeta.notes : OrderMeta → Option String
  | .manual _ n => some n
  | .raw _ => none

/-- A row of the `orders` table. -/
structure Order where
  id : Nat
  user_discord_id : Nat
  product_id : Nat
  price_paid_cents : Int
  discount_applied_percent : ℚ
  order_metadata : OrderMeta
deriving DecidableEq

/-- A row of the `wallet_transactions` ledger table. -/
structure WalletTxn where
  id : Nat
  user_discord_id : Nat
  amount_cents : Int
  balance_after_cents : Int
  transaction_type : String
  order_id : Option Nat
deriving DecidableEq

/-- A row of the `products` catalog table. -/
structure Product where
  id : Nat
  main_category : String
  sub_category : String
  service_name : String
  variant_name : String
  price_cents : Int
deriving DecidableEq

/-- A row of the `discounts` table.  `expires_at` is stored as a
"YYYY-MM-DD HH:MM:SS" timestamp string (NULL means no expiry). -/
structure Discount where
  id : Nat
  user_id : Option Nat
  product_id : Option Nat
  vip_tier : Option String
  discount_percent : ℚ
  description : String
  expires_at : Option String
deriving DecidableEq

/-- A row of the `tickets` table (after migration v4 added `type`,
`order_id`, `assigned_staff_id`, `priority`, `closed_at`). -/
structure Ticket where
  id : Nat
  user_discord_id : Nat
  channel_id : Nat
  status : String
  type : String
  order_id : Option Nat
  assigned_staff_id : Option Nat
  priority : Option String
  closed_at : Option String
deriving DecidableEq

/-- The relational state: one list per table plus autoincrement counters. -/
structure Database where
  users : List User
  products : List Product
  orders : List Order
  wallet_transactions : List WalletTxn
  discounts : List Discount
  tickets : List Ticket
  next_product_id : Nat
  next_order_id : Nat
  next_txn_id : Nat
  next_discount_id : Nat
  next_ticket_id : Nat
deriving DecidableEq

/-- A freshly migrated, empty database. -/
def emptyDB : Database :=
  ⟨[], [], [], [], [], [], 1, 1, 1, 1, 1⟩

/-- SELECT the row of `users` with the given discord id. -/
def get_user (db : Database) (discord_id : Nat) : Option User :=
  db.users.find? (fun u => u.discord_id == discord_id)

/-- Wallet balance of a user, 0 when the row does not exist yet. -/
def balanceOf (db : Database) (discord_id : Nat) : Int :=
  ((get_user db discord_id).map User.wallet_balance_cents).getD 0

/-- Lifetime spend of a user, 0 when the row does not exist yet. -/
def lifetimeOf (db : Database) (discord_id : Nat) : Int :=
  ((get_user db discord_id).map User.total_lifetime_spent_cents).getD 0

/-- Modelled from the spec: `ensure_user` (INSERT OR IGNORE) creates the
row with zero balances when absent and returns the current row. -/
def ensure_user (db : Database) (discord_id : Nat) : User × Database :=
  match get_user db discord_id with
  | some u => (u, db)
  | none =>
    let u : User := ⟨discord_id, 0, 0⟩
    (u, { db with users := db.users ++ [u] })

/-- UPDATE of the single `users` row with the given discord id. -/
def updateUser (db : Database) (discord_id : Nat) (f : User → User) : Database :=
  { db with users := db.users.map (fun u => if u.discord_id == discord_id then f u else u) }

/-- Modelled from the spec: `update_wallet_balance` adds `delta` to the
wallet and, for positive deltas only, to `total_lifetime_spent_cents`;
it returns the new wallet balance (test_update_wallet_balance_tracks_lifetime_spend,
test_update_wallet_balance_negative_deltas_do_not_increase_lifetime). -/
def update_wallet_balance (db : Database) (discord_id : Nat) (delta : Int) : Int × Database :=
  let p := ensure_user db discord_id
  let lifetimeDelta : Int := if 0 < delta then delta else 0
  (p.1.wallet_balance_cents + delta,
    updateUser p.2 discord_id (fun u =>
      { u with
        wallet_balance_cents := u.wallet_balance_cents + delta,
        total_lifetime_spent_cents := u.total_lifetime_spent_cents + lifetimeDelta }))

/-- Modelled from the spec: `create_product` inserts a catalog row and
returns its id. -/
def create_product (db : Database) (main_category sub_category service_name variant_name : String)
    (price_cents : Int) : Nat × Database :=
  let pid := db.next_product_id
  (pid, { db with
            products := db.products ++ [⟨pid, main_category, sub_category, service_name, variant_name, price_cents⟩],
            next_product_id := db.next_product_id + 1 })

/-- Modelled from the spec: `purchase_product` is a single transaction that
reads the balance, compares it to the price, raises ValueError
"Insufficient balance" when the balance is below the price, and otherwise
writes the new balance (also adding the price to lifetime spend), inserts
one order row and one ledger entry, returning the order id and the new
balance.  The second component is the database state after the call; on
the error path nothing was written. -/
def purchase_product (db : Database) (user_discord_id : Nat) (product_id : Nat)
    (price_paid_cents : Int) (discount_applied_percent : ℚ) (order_metadata : OrderMeta) :
    Except String (Nat × Int) × Database :=
  let p := ensure_user db user_discord_id
  if p.1.wallet_balance_cents < price_paid_cents then
    (Except.error "Insufficient balance", p.2)
  else
    let newBalance := p.1.wallet_balance_cents - price_paid_cents
    let oid := p.2.next_order_id
    let order : Order :=
      ⟨oid, user_discord_id, product_id, price_paid_cents, discount_applied_percent, order_metadata⟩
    let txn : WalletTxn :=
      ⟨p.2.next_txn_id, user_discord_id, -price_paid_cents, newBalance, "purchase", some oid⟩
    let db2 := updateUser p.2 user_discord_id (fun u =>
      { u with
        wallet_balance_cents := u.wallet_balance_cents - price_paid_cents,
        total_lifetime_spent_cents := u.total_lifetime_spent_cents + price_paid_cents })
    (Except.ok (oid, newBalance),
      { db2 with
        orders := db2.orders ++ [order],
        wallet_transactions := db2.wallet_transactions ++ [txn],
        next_order_id := db2.next_order_id + 1,
        next_txn_id := db2.next_txn_id + 1 })

/-- Modelled from the spec: `create_manual_order` records a non-catalog
order (product_id 0, JSON metadata with manual_order true, the product name
and the notes), adds the price to lifetime spend without touching the
wallet, and returns the order id and the new lifetime total
(test_create_manual_order_updates_lifetime_not_wallet). -/
def create_manual_order (db : Database) (user_discord_id : Nat) (product_name : String)
    (price_paid_cents : Int) (notes : String) : (Nat × Int) × Database :=
  let p := ensure_user db user_discord_id
  let newLifetime := p.1.total_lifetime_spent_cents + price_paid_cents
  let oid := p.2.next_order_id
  let order : Order :=
    ⟨oid, user_discord_id, 0, price_paid_cents, 0, OrderMeta.manual product_name notes⟩
  let db2 := updateUser p.2 user_discord_id (fun u =>
    { u with total_lifetime_spent_cents := u.total_lifetime_spent_cents + price_paid_cents })
  ((oid, newLifetime),
    { db2 with orders := db2.orders ++ [order], next_order_id := db2.next_order_id + 1 })

/-- Modelled from the spec: `set_discount` inserts a discount row and
returns its id. -/
def set_discount (db : Database) (user_id product_id : Option Nat) (vip_tier : Option String)
    (discount_percent : ℚ) (description : String) (expires_at : Option String) : Nat × Database :=
  let did := db.next_discount_id
  (did, { db with
            discounts := db.discounts ++
              [⟨did, user_id, product_id, vip_tier, discount_percent, description, expires_at⟩],
            next_discount_id := db.next_discount_id + 1 })

/-- Modelled from the spec: a discount row matches the query parameters when
each of its scoping columns is NULL or equal to the corresponding parameter. -/
def discount_matches (d : Discount) (user_id product_id : Option Nat)
    (vip_tier : Option String) : Bool :=
  (d.user_id == none || d.user_id == user_id) &&
  (d.product_id == none || d.product_id == product_id) &&
  (d.vip_tier == none || d.vip_tier == vip_tier)

/-- Lexicographic comparison of character lists by code point, the
comparison SQLite applies to two TEXT values under the default BINARY
collation. -/
def strltb : List Char → List Char → Bool
  | _, [] => false
  | [], _ :: _ => true
  | a :: as, b :: bs =>
    if a.toNat < b.toNat then true
    else if b.toNat < a.toNat then false
    else strltb as bs

/-- Strict "is below" on timestamp strings. -/
def str_lt (a b : String) : Bool :=
  strltb a.data b.data

/-- Non-strict "is at most" on timestamp strings. -/
def str_le (a b : String) : Bool :=
  !(strltb b.data a.data)

/-- Modelled from the spec: a discount is active when `expires_at` is NULL or
its timestamp string compares above the current-time string (SQLite compares
"YYYY-MM-DD HH:MM:SS" strings, which orders them chronologically). -/
def discount_active (d : Discount) (now : String) : Bool :=
  match d.expires_at with
  | none => true
  | some t => str_lt now t

/-- Sort key for the expiry tie-break: NULL sorts below every timestamp. -/
def Discount.expKey (d : Discount) : String :=
  d.expires_at.getD ""

/-- Modelled from the spec: the ORDER BY relation of the discount query,
highest `discount_percent` first, ties broken by `expires_at` (latest
expiry first). -/
def discountBefore (a b : Discount) : Prop :=
  b.discount_percent < a.discount_percent ∨
    (a.discount_percent = b.discount_percent ∧
      str_le (Discount.expKey b) (Discount.expKey a) = true)

instance : DecidableRel discountBefore := fun a b => by
  unfold discountBefore; infer_instance

instance : IsTotal Discount discountBefore where
  total a b := by
    have asymm : ∀ u v : List Char, strltb u v = true → strltb v u = false := by
      intro u
      induction u with
      | nil =>
        intro v h
        cases v with
        | nil => simp [strltb] at h
        | cons y ys => simp [strltb]
      | cons x xs ih =>
        intro v h
        cases v with
        | nil => simp [strltb] at h
        | cons y ys =>
          simp only [strltb] at h ⊢
          by_cases h1 : x.toNat < y.toNat
          · rw [if_neg (by omega), if_pos h1]
          · by_cases h2 : y.toNat < x.toNat
            · rw [if_neg h1, if_pos h2] at h
              exact absurd h (by simp)
            · rw [if_neg h1, if_neg h2] at h
              rw [if_neg h2, if_neg h1]
              exact ih ys h
    rcases lt_trichotomy a.discount_percent b.discount_percent with h | h | h
    · exact Or.inr (Or.inl h)
    · by_cases hk : strltb (Discount.expKey a).data (Discount.expKey b).data = true
      · exact Or.inr (Or.inr ⟨h.symm, by simp [str_le, asymm _ _ hk]⟩)
      · exact Or.inl (Or.inr ⟨h, by simp [str_le, Bool.not_eq_true _ ▸ hk]⟩)
    · exact Or.inl (Or.inl h)

instance : IsTrans Discount discountBefore where
  trans a b c hab hbc := by
    have ftrans : ∀ u v w : List Char,
        strltb u v = false → strltb v w = false → strltb u w = false := by
      intro u
      induction u with
      | nil =>
        intro v w huv hvw
        cases v with
        | nil =>
          cases w with
          | nil => rfl
          | cons z zs => simp [strltb] at hvw
        | cons y ys => simp [strltb] at huv
      | cons x xs ih =>
        intro v w huv hvw
        cases v with
        | nil =>
          cases w with
          | nil => simp [strltb]
          | cons z zs => simp [strltb] at hvw
        | cons y ys =>
          cases w with
          | nil => simp [strltb]
          | cons z zs =>
            simp only [strltb] at huv hvw ⊢
            by_cases h1 : x.toNat < y.toNat
            · rw [if_pos h1] at huv
              exact absurd huv (by simp)
            · by_cases h2 : y.toNat < z.toNat
              · rw [if_pos h2] at hvw
                exact absurd hvw (by simp)
              · by_cases h3 : z.toNat < x.toNat
                · rw [if_neg (by omega), if_pos h3]
                · rw [if_neg (by omega), if_neg h3]
                  rw [if_neg h1, if_neg (by omega)] at huv
                  rw [if_neg h2, if_neg (by omega)] at hvw
                  exact ih ys zs huv hvw
    rcases hab with h1 | ⟨h1, k1⟩
    · rcases hbc with h2 | ⟨h2, k2⟩
      · exact Or.inl (h2.trans h1)
      · exact Or.inl (h2 ▸ h1)
    · rcases hbc with h2 | ⟨h2, k2⟩
      · exact Or.inl (h1 ▸ h2)
      · refine Or.inr ⟨h1.trans h2, ?_⟩
        simp only [str_le, Bool.not_eq_true'] at k1 k2 ⊢
        exact ftrans _ _ _ k1 k2

/-- Modelled from the spec: `get_applicable_discounts` is a linear scan that
keeps the rows matching the user/product/vip parameters whose expiry has not
passed, ordered by percent with the percent/expiry tie-break stored directly
in the query. -/
def get_applicable_discounts (db : Database) (user_id product_id : Option Nat)
    (vip_tier : Option String) (now : String) : List Discount :=
  (db.discounts.filter
      (fun d => discount_matches d user_id product_id vip_tier && discount_active d now)).insertionSort
    discountBefore

/-- Modelled from the spec: `create_ticket` appends a ticket row; the Python
defaults are status "open", type "support" and NULL for `order_id`,
`assigned_staff_id` and `priority`; `closed_at` starts NULL. -/
def create_ticket (db : Database) (user_discord_id channel_id : Nat) (status ticket_type : String)
    (order_id : Option Nat) (assigned_staff_id : Option Nat) (priority : Option String) :
    Nat × Database :=
  let tid := db.next_ticket_id
  (tid, { db with
            tickets := db.tickets ++
              [⟨tid, user_discord_id, channel_id, status, ticket_type, order_id,
                assigned_staff_id, priority, none⟩],
            next_ticket_id := db.next_ticket_id + 1 })

/-- `create_ticket` with the Python default arguments. -/
def create_ticket_defaults (db : Database) (user_discord_id channel_id : Nat) : Nat × Database :=
  create_ticket db user_discord_id channel_id "open" "support" none none none

/-- SELECT the ticket row for a channel. -/
def get_ticket_by_channel (db : Database) (channel_id : Nat) : Option Ticket :=
  db.tickets.find? (fun t => t.channel_id == channel_id)

/-- SELECT the ticket row linked to an order. -/
def get_ticket_by_order_id (db : Database) (order_id : Nat) : Option Ticket :=
  db.tickets.find? (fun t => t.order_id == some order_id)

/-- A keyword argument of `update_ticket`: `some v` sets the column, `none`
leaves it alone. -/
def overrideOpt {α : Type} (new : Option α) (old : Option α) : Option α :=
  match new with
  | some v => some v
  | none => old

/-- Modelled from the spec: `update_ticket` updates exactly the supplied
subset of the columns `type`, `order_id`, `assigned_staff_id`, `priority`,
`closed_at` of the ticket in the given channel; `status` is not among them. -/
def update_ticket (db : Database) (channel_id : Nat) (ticket_type : Option String)
    (order_id : Option Nat) (assigned_staff_id : Option Nat) (priority : Option String)
    (closed_at : Option String) : Database :=
  { db with
    tickets := db.tickets.map (fun t =>
      if t.channel_id == channel_id then
        { t with
          type := ticket_type.getD t.type,
          order_id := overrideOpt order_id t.order_id,
          assigned_staff_id := overrideOpt assigned_staff_id t.assigned_staff_id,
          priority := overrideOpt priority t.priority,
          closed_at := overrideOpt closed_at t.closed_at }
      else t) }

/-- Modelled from the spec: `update_ticket_status` sets the `status` column
of the ticket in the given channel and nothing else. -/
def update_ticket_status (db : Database) (channel_id : Nat) (status : String) : Database :=
  { db with
    tickets := db.tickets.map (fun t =>
      if t.channel_id == channel_id then { t with status := status } else t) }

/-- The reply produced by the `/orders` and `/transactions` commands. -/
inductive PageReply (α : Type) where
  | noneFound
  | emptyPage (page : Int)
  | pageView (page : Int) (totalPages : Nat) (shown : List α)
deriving DecidableEq

/-- Page size of the `/orders` and `/transactions` commands. -/
def per_page : Nat := 10

/-- The pagination logic shared by `OrdersCog.orders` and
`OrdersCog.transactions` (src/cogs/orders.py): a page below 1 is clamped to
1, the page slice is LIMIT `per_page` OFFSET `(page-1)*per_page`, an empty
slice answers "No ... found" on page 1 and "No ... on page N" otherwise, and
a non-empty slice reports `(total + per_page - 1) / per_page` total pages. -/
def paginate {α : Type} (items : List α) (page : Int) : PageReply α :=
  let page := if page < 1 then 1 else page
  let offset := ((page - 1) * (per_page : Int)).toNat
  let shown := (items.drop offset).take per_page
  if shown.isEmpty then
    if page == 1 then PageReply.noneFound else PageReply.emptyPage page
  else
    PageReply.pageView page ((items.length + per_page - 1) / per_page) shown

/-- `OrdersCog.orders` applied to the target user's ordered order rows. -/
def orders_command {α : Type} (user_orders : List α) (page : Int) : PageReply α :=
  paginate user_orders page

/-- `OrdersCog.transactions` applied to the target user's ordered ledger rows. -/
def transactions_command {α : Type} (user_txns : List α) (page : Int) : PageReply α :=
  paginate user_txns page

/-- The balance invariant: no user row holds a negative wallet balance. -/
def nonneg_balances (db : Database) : Prop :=
  ∀ u ∈ db.users, 0 ≤ u.wallet_balance_cents

/-- Well-formedness from the schema: `discord_id` is the primary key of
`users`, so no two rows share it. -/
def users_unique (db : Database) : Prop :=
  (db.users.map User.discord_id).Nodup

/-! Helper lemmas about `find?`-based row lookup. -/

theorem find_map_pred {α : Type} (p : α → Bool) (g : α → α) (h : ∀ a, p (g a) = p a) :
    ∀ l : List α, (l.map g).find? p = (l.find? p).map g := by
  intro l
  induction l with
  | nil => rfl
  | cons a t ih =>
    by_cases hp : p a
    · rw [List.map_cons, List.find?_cons_of_pos _ (by rw [h]; exact hp),
        List.find?_cons_of_pos _ hp]
      rfl
    · rw [List.map_cons, List.find?_cons_of_neg _ (by rw [h]; exact hp),
        List.find?_cons_of_neg _ hp, ih]

theorem get_user_discord_id {db : Database} {x : Nat} {u : User}
    (h : get_user db x = some u) : u.discord_id = x := by
  have := List.find?_some h
  simpa using this

theorem ensure_user_found {db : Database} {did : Nat} {u : User}
    (h : get_user db did = some u) : ensure_user db did = (u, db) := by
  unfold ensure_user
  rw [h]

theorem ensure_user_missing {db : Database} {did : Nat}
    (h : get_user db did = none) :
    ensure_user db did =
      (⟨did, 0, 0⟩, { db with users := db.users ++ [⟨did, 0, 0⟩] }) := by
  unfold ensure_user
  rw [h]

theorem get_user_append_fresh {db : Database} {did : Nat}
    (h : get_user db did = none) (x : Nat) :
    get_user { db with users := db.users ++ [(⟨did, 0, 0⟩ : User)] } x =
      if did == x then some ⟨did, 0, 0⟩ else get_user db x := by
  unfold get_user at *
  rw [List.find?_append]
  by_cases hx : did = x
  · subst hx
    rw [h]
    simp [List.find?_cons]
  · have : get_user db x = db.users.find? (fun u => u.discord_id == x) := rfl
    by_cases hfx : (db.users.find? (fun u => u.discord_id == x)).isSome
    · rcases Option.isSome_iff_exists.mp hfx with ⟨u, hu⟩
      simp [hu, Option.or, hx]
    · have hnone : db.users.find? (fun u => u.discord_id == x) = none :=
        Option.not_isSome_iff_eq_none.mp hfx
      rw [hnone]
      simp [List.find?_cons, hx, Ne.symm hx]

theorem get_user_ensure_snd {db : Database} {did : Nat} (x : Nat) :
    get_user (ensure_user db did).2 x =
      if did == x then some (ensure_user db did).1 else get_user db x := by
  cases h : get_user db did with
  | some u =>
    rw [ensure_user_found h]
    by_cases hx : did = x
    · subst hx
      simp [h, get_user_discord_id h]
    · simp [hx]
  | none =>
    rw [ensure_user_missing h]
    exact get_user_append_fresh h x

theorem get_user_ensure_self (db : Database) (did : Nat) :
    get_user (ensure_user db did).2 did = some (ensure_user db did).1 := by
  rw [get_user_ensure_snd]
  simp

theorem get_user_updateUser (db : Database) (did x : Nat) (f : User → User)
    (hf : ∀ u, (f u).discord_id = u.discord_id) :
    get_user (updateUser db did f) x =
      (get_user db x).map (fun u => if u.discord_id == did then f u else u) := by
  unfold get_user updateUser
  exact find_map_pred _ _
    (fun a => by by_cases h : a.discord_id = did <;> simp [h, hf]) _

theorem ensure_user_fst_id (db : Database) (did : Nat) :
    (ensure_user db did).1.discord_id = did := by
  cases h : get_user db did with
  | some u => rw [ensure_user_found h]; exact get_user_discord_id h
  | none => rw [ensure_user_missing h]

theorem ensure_user_fst_balance (db : Database) (did : Nat) :
    (ensure_user db did).1.wallet_balance_cents = balanceOf db did := by
  cases h : get_user db did with
  | some u => rw [ensure_user_found h]; simp [balanceOf, h]
  | none => rw [ensure_user_missing h]; simp [balanceOf, h]

theorem ensure_user_fst_lifetime (db : Database) (did : Nat) :
    (ensure_user db did).1.total_lifetime_spent_cents = lifetimeOf db did := by
  cases h : get_user db did with
  | some u => rw [ensure_user_found h]; simp [lifetimeOf, h]
  | none => rw [ensure_user_missing h]; simp [lifetimeOf, h]

theorem balanceOf_ensure (db : Database) (did x : Nat) :
    balanceOf (ensure_user db did).2 x = balanceOf db x := by
  unfold balanceOf
  rw [get_user_ensure_snd]
  by_cases hx : did = x
  · subst hx
    simp [ensure_user_fst_balance, balanceOf]
  · simp [hx]

theorem lifetimeOf_ensure (db : Database) (did x : Nat) :
    lifetimeOf (ensure_user db did).2 x = lifetimeOf db x := by
  unfold lifetimeOf
  rw [get_user_ensure_snd]
  by_cases hx : did = x
  · subst hx
    simp [ensure_user_fst_lifetime, lifetimeOf]
  · simp [hx]

theorem balanceOf_updateUser_self (db : Database) (did : Nat) (f : User → User)
    (hf : ∀ u, (f u).discord_id = u.discord_id) {u : User} (h : get_user db did = some u) :
    balanceOf (updateUser db did f) did = (f u).wallet_balance_cents := by
  unfold balanceOf
  rw [get_user_updateUser _ _ _ _ hf, h]
  simp [get_user_discord_id h]

theorem lifetimeOf_updateUser_self (db : Database) (did : Nat) (f : User → User)
    (hf : ∀ u, (f u).discord_id = u.discord_id) {u : User} (h : get_user db did = some u) :
    lifetimeOf (updateUser db did f) did = (f u).total_lifetime_spent_cents := by
  unfold lifetimeOf
  rw [get_user_updateUser _ _ _ _ hf, h]
  simp [get_user_discord_id h]

theorem balanceOf_updateUser_frame (db : Database) (did x : Nat) (f : User → User)
    (hf : ∀ u, (f u).discord_id = u.discord_id) (hx : x ≠ did) :
    balanceOf (updateUser db did f) x = balanceOf db x := by
  unfold balanceOf
  rw [get_user_updateUser _ _ _ _ hf]
  cases h : get_user db x with
  | some u => simp [get_user_discord_id h, hx]
  | none => simp

theorem lifetimeOf_updateUser_frame (db : Database) (did x : Nat) (f : User → User)
    (hf : ∀ u, (f u).discord_id = u.discord_id) (hx : x ≠ did) :
    lifetimeOf (updateUser db did f) x = lifetimeOf db x := by
  unfold lifetimeOf
  rw [get_user_updateUser _ _ _ _ hf]
  cases h : get_user db x with
  | some u => simp [get_user_discord_id h, hx]
  | none => simp

theorem update_wallet_balance_fst (db : Database) (did : Nat) (delta : Int) :
    (update_wallet_balance db did delta).1 = balanceOf db did + delta := by
  simp only [update_wallet_balance]
  rw [ensure_user_fst_balance]

theorem update_wallet_balance_balance_self (db : Database) (did : Nat) (delta : Int) :
    balanceOf (update_wallet_balance db did delta).2 did = balanceOf db did + delta := by
  simp only [update_wallet_balance]
  rw [balanceOf_updateUser_self _ _ _ (by intro u; rfl) (get_user_ensure_self db did)]
  simp [ensure_user_fst_balance]

theorem update_wallet_balance_lifetime_self (db : Database) (did : Nat) (delta : Int) :
    lifetimeOf (update_wallet_balance db did delta).2 did =
      lifetimeOf db did + (if 0 < delta then delta else 0) := by
  simp only [update_wallet_balance]
  rw [lifetimeOf_updateUser_self _ _ _ (by intro u; rfl) (get_user_ensure_self db did)]
  simp [ensure_user_fst_lifetime]

theorem update_wallet_balance_balance_frame (db : Database) (did x : Nat) (delta : Int)
    (hx : x ≠ did) :
    balanceOf (update_wallet_balance db did delta).2 x = balanceOf db x := by
  simp only [update_wallet_balance]
  rw [balanceOf_updateUser_frame _ _ _ _ (by intro u; rfl) hx, balanceOf_ensure]

theorem update_wallet_balance_lifetime_frame (db : Database) (did x : Nat) (delta : Int)
    (hx : x ≠ did) :
    lifetimeOf (update_wallet_balance db did delta).2 x = lifetimeOf db x := by
  simp only [update_wallet_balance]
  rw [lifetimeOf_updateUser_frame _ _ _ _ (by intro u; rfl) hx, lifetimeOf_ensure]

theorem update_wallet_balance_lifetime_mono (db : Database) (did x : Nat) (delta : Int) :
    lifetimeOf db x ≤ lifetimeOf (update_wallet_balance db did delta).2 x := by
  by_cases hx : x = did
  · subst hx
    rw [update_wallet_balance_lifetime_self]
    by_cases hd : 0 < delta
    · simp [hd]
      omega
    · simp [hd]
  · rw [update_wallet_balance_lifetime_frame _ _ _ _ hx]

theorem balanceOf_users_eq {db db2 : Database} (h : db.users = db2.users) (x : Nat) :
    balanceOf db x = balanceOf db2 x := by
  unfold balanceOf get_user
  rw [h]

theorem lifetimeOf_users_eq {db db2 : Database} (h : db.users = db2.users) (x : Nat) :
    lifetimeOf db x = lifetimeOf db2 x := by
  unfold lifetimeOf get_user
  rw [h]

theorem purchase_product_insufficient {db : Database} {did : Nat} {u : User}
    (pid : Nat) (price : Int) (pct : ℚ) (meta : OrderMeta)
    (h : get_user db did = some u) (hlt : u.wallet_balance_cents < price) :
    purchase_product db did pid price pct meta = (Except.error "Insufficient balance", db) := by
  simp only [purchase_product, ensure_user_found h]
  rw [if_pos hlt]

theorem purchase_product_ok_eq {db : Database} {did : Nat} {u : User}
    (pid : Nat) (price : Int) (pct : ℚ) (meta : OrderMeta)
    (h : get_user db did = some u) (hge : price ≤ u.wallet_balance_cents) :
    purchase_product db did pid price pct meta =
      (Except.ok (db.next_order_id, u.wallet_balance_cents - price),
        { updateUser db did (fun v =>
            { v with
              wallet_balance_cents := v.wallet_balance_cents - price,
              total_lifetime_spent_cents := v.total_lifetime_spent_cents + price }) with
          orders := db.orders ++ [⟨db.next_order_id, did, pid, price, pct, meta⟩],
          wallet_transactions := db.wallet_transactions ++
            [⟨db.next_txn_id, did, -price, u.wallet_balance_cents - price, "purchase",
              some db.next_order_id⟩],
          next_order_id := db.next_order_id + 1,
          next_txn_id := db.next_txn_id + 1 }) := by
  simp only [purchase_product, ensure_user_found h]
  rw [if_neg (not_lt.mpr hge)]
  rfl

/-- C1: for every user and catalog product, purchase_product raises
"Insufficient balance" iff the user's wallet balance is strictly below
price_paid_cents, and when it raises the database state is unchanged: the
balances keep their prior values and no order row and no ledger entry is
created. -/
theorem purchase_insufficient_balance_iff (db : Database) (did pid : Nat) (price : Int)
    (pct : ℚ) (meta : OrderMeta) (u : User) (h : get_user db did = some u) :
    ((purchase_product db did pid price pct meta).1 = Except.error "Insufficient balance"
        ↔ u.wallet_balance_cents < price)
    ∧ (∀ e, (purchase_product db did pid price pct meta).1 = Except.error e →
        e = "Insufficient balance")
    ∧ (u.wallet_balance_cents < price →
        (purchase_product db did pid price pct meta).2 = db
        ∧ balanceOf (purchase_product db did pid price pct meta).2 did = balanceOf db did
        ∧ lifetimeOf (purchase_product db did pid price pct meta).2 did = lifetimeOf db did
        ∧ (purchase_product db did pid price pct meta).2.orders = db.orders
        ∧ (purchase_product db did pid price pct meta).2.wallet_transactions =
            db.wallet_transactions) := by
  by_cases hlt : u.wallet_balance_cents < price
  · rw [purchase_product_insufficient pid price pct meta h hlt]
    exact ⟨⟨fun _ => hlt, fun _ => rfl⟩, fun e he => by simpa using he.symm,
      fun _ => ⟨rfl, rfl, rfl, rfl, rfl⟩⟩
  · rw [purchase_product_ok_eq pid price pct meta h (not_lt.mp hlt)]
    refine ⟨⟨fun he => by simp at he, fun he => absurd he hlt⟩,
      fun e he => by simp at he, fun he => absurd he hlt⟩

/-- C1 witness: a user holding 300 cents cannot buy at 400 cents; the call
errors with "Insufficient balance" and writes nothing. -/
theorem purchase_insufficient_balance_iff_witness :
    (purchase_product (update_wallet_balance emptyDB 45678 300).2 45678 7 400 0
        (OrderMeta.raw "\x7b\x7d")).1 = Except.error "Insufficient balance"
    ∧ (purchase_product (update_wallet_balance emptyDB 45678 300).2 45678 7 400 0
        (OrderMeta.raw "\x7b\x7d")).2 = (update_wallet_balance emptyDB 45678 300).2 := by
  have hc := purchase_insufficient_balance_iff (update_wallet_balance emptyDB 45678 300).2
    45678 7 400 0 (OrderMeta.raw "\x7b\x7d") ⟨45678, 300, 300⟩ (by decide)
  exact ⟨hc.1.mpr (by decide), (hc.2.2 (by decide)).1⟩

/-- C2: for every user whose wallet balance covers price_paid_cents,
purchase_product returns the order id and the new balance (old balance minus
the price), writes exactly that balance, appends exactly one order row
recording the given user_discord_id, product_id, price_paid_cents and
discount_applied_percent, and appends exactly one ledger entry. -/
theorem purchase_success_spec (db : Database) (did pid : Nat) (price : Int)
    (pct : ℚ) (meta : OrderMeta) (u : User) (h : get_user db did = some u)
    (hge : price ≤ u.wallet_balance_cents) :
    ∃ oid newBalance,
      (purchase_product db did pid price pct meta).1 = Except.ok (oid, newBalance)
      ∧ oid = db.next_order_id
      ∧ newBalance = u.wallet_balance_cents - price
      ∧ balanceOf (purchase_product db did pid price pct meta).2 did = newBalance
      ∧ (purchase_product db did pid price pct meta).2.orders =
          db.orders ++ [⟨oid, did, pid, price, pct, meta⟩]
      ∧ (purchase_product db did pid price pct meta).2.wallet_transactions =
          db.wallet_transactions ++
            [⟨db.next_txn_id, did, -price, newBalance, "purchase", some oid⟩] := by
  have heq := purchase_product_ok_eq pid price pct meta h hge
  refine ⟨db.next_order_id, u.wallet_balance_cents - price, ?_, rfl, rfl, ?_, ?_, ?_⟩
  · rw [heq]
  · rw [heq]
    have hu : balanceOf
        { updateUser db did (fun v =>
            { v with
              wallet_balance_cents := v.wallet_balance_cents - price,
              total_lifetime_spent_cents := v.total_lifetime_spent_cents + price }) with
          orders := db.orders ++ [⟨db.next_order_id, did, pid, price, pct, meta⟩],
          wallet_transactions := db.wallet_transactions ++
            [⟨db.next_txn_id, did, -price, u.wallet_balance_cents - price, "purchase",
              some db.next_order_id⟩],
          next_order_id := db.next_order_id + 1,
          next_txn_id := db.next_txn_id + 1 } did =
        balanceOf (updateUser db did (fun v =>
            { v with
              wallet_balance_cents := v.wallet_balance_cents - price,
              total_lifetime_spent_cents := v.total_lifetime_spent_cents + price })) did :=
      balanceOf_users_eq rfl did
    have hb := balanceOf_updateUser_self db did (fun v =>
      { v with
        wallet_balance_cents := v.wallet_balance_cents - price,
        total_lifetime_spent_cents := v.total_lifetime_spent_cents + price })
      (fun v => rfl) h
    rw [hu, hb]
  · rw [heq]
  · rw [heq]

/-- C2 witness: a user holding 2000 cents buys at 1200 cents; the new
balance is 800 and the order and ledger rows are those of the call. -/
theorem purchase_success_spec_witness :
    ∃ oid newBalance,
      (purchase_product (update_wallet_balance emptyDB 34567 2000).2 34567 7 1200 10
          (OrderMeta.raw "\x7b\x7d")).1 = Except.ok (oid, newBalance)
      ∧ oid = (update_wallet_balance emptyDB 34567 2000).2.next_order_id
      ∧ newBalance = (2000 : Int) - 1200
      ∧ balanceOf (purchase_product (update_wallet_balance emptyDB 34567 2000).2 34567 7 1200 10
          (OrderMeta.raw "\x7b\x7d")).2 34567 = newBalance
      ∧ (purchase_product (update_wallet_balance emptyDB 34567 2000).2 34567 7 1200 10
          (OrderMeta.raw "\x7b\x7d")).2.orders =
          (update_wallet_balance emptyDB 34567 2000).2.orders ++ [⟨oid, 34567, 7, 1200, 10, OrderMeta.raw "\x7b\x7d"⟩]
      ∧ (purchase_product (update_wallet_balance emptyDB 34567 2000).2 34567 7 1200 10
          (OrderMeta.raw "\x7b\x7d")).2.wallet_transactions =
          (update_wallet_balance emptyDB 34567 2000).2.wallet_transactions ++
            [⟨(update_wallet_balance emptyDB 34567 2000).2.next_txn_id, 34567, -1200, newBalance,
              "purchase", some oid⟩] :=
  purchase_success_spec (update_wallet_balance emptyDB 34567 2000).2 34567 7 1200 10
    (OrderMeta.raw "\x7b\x7d") ⟨34567, 2000, 2000⟩ (by decide) (by decide)

/-! Lemmas about the balance invariant. -/

theorem nonneg_users_eq {db db2 : Database} (h : db.users = db2.users)
    (hinv : nonneg_balances db2) : nonneg_balances db := by
  intro u hu
  exact hinv u (h ▸ hu)

theorem get_user_isSome_of_mem {db : Database} {u : User} (hu : u ∈ db.users) :
    ∃ u0, get_user db u.discord_id = some u0 := by
  cases h : get_user db u.discord_id with
  | some u0 => exact ⟨u0, rfl⟩
  | none =>
    exact absurd (by simp : (u.discord_id == u.discord_id) = true)
      (by simpa using List.find?_eq_none.mp h u hu)

theorem unique_user_eq {db : Database} (huniq : users_unique db) {u u0 : User}
    (hu : u ∈ db.users) (h : get_user db u.discord_id = some u0) : u = u0 := by
  have hmem0 : u0 ∈ db.users := List.mem_of_find?_eq_some h
  have hid : u0.discord_id = u.discord_id := get_user_discord_id h
  exact List.inj_on_of_nodup_map huniq hu hmem0 hid.symm

theorem nonneg_after_updateUser {db : Database} (did : Nat) (f : User → User)
    (hinv : nonneg_balances db) (huniq : users_unique db)
    (hmatch : ∀ u, get_user db did = some u → 0 ≤ (f u).wallet_balance_cents) :
    nonneg_balances (updateUser db did f) := by
  intro u2 hu2
  rcases List.mem_map.mp hu2 with ⟨u, hu, rfl⟩
  by_cases hd : u.discord_id = did
  · rcases get_user_isSome_of_mem hu with ⟨u0, h0⟩
    have := unique_user_eq huniq hu h0
    subst this
    rw [hd] at h0
    simp [hd, hmatch u h0]
  · simpa [hd] using hinv u hu

theorem nonneg_ensure {db : Database} (did : Nat) (hinv : nonneg_balances db) :
    nonneg_balances (ensure_user db did).2 := by
  cases h : get_user db did with
  | some u => rw [ensure_user_found h]; exact hinv
  | none =>
    rw [ensure_user_missing h]
    intro u hu
    rcases List.mem_append.mp hu with hu | hu
    · exact hinv u hu
    · simp at hu
      simp [hu]

theorem unique_ensure {db : Database} (did : Nat) (huniq : users_unique db) :
    users_unique (ensure_user db did).2 := by
  cases h : get_user db did with
  | some u => rw [ensure_user_found h]; exact huniq
  | none =>
    rw [ensure_user_missing h]
    unfold users_unique at *
    simp only [List.map_append, List.map_cons, List.map_nil]
    rw [List.nodup_append]
    refine ⟨huniq, List.nodup_singleton _, ?_⟩
    intro a ha hb
    simp at hb
    rcases List.mem_map.mp ha with ⟨u, hu, rfl⟩
    have := List.find?_eq_none.mp h u hu
    simp [hb] at this

theorem balanceOf_eq_of_get {db : Database} {did : Nat} {u : User}
    (h : get_user db did = some u) : balanceOf db did = u.wallet_balance_cents := by
  simp [balanceOf, h]

theorem lifetimeOf_eq_of_get {db : Database} {did : Nat} {u : User}
    (h : get_user db did = some u) : lifetimeOf db did = u.total_lifetime_spent_cents := by
  simp [lifetimeOf, h]

/-- C4: update_wallet_balance returns the new wallet balance, equal to the
previous balance plus delta and also written to the row; a positive delta
adds delta to total_lifetime_spent_cents, a negative delta leaves it
unchanged, and lifetime spend never decreases across any sequence of calls. -/
theorem update_wallet_balance_spec (db : Database) (did : Nat) (delta : Int) :
    (update_wallet_balance db did delta).1 = balanceOf db did + delta
    ∧ balanceOf (update_wallet_balance db did delta).2 did = balanceOf db did + delta
    ∧ (0 < delta →
        lifetimeOf (update_wallet_balance db did delta).2 did = lifetimeOf db did + delta)
    ∧ (delta < 0 →
        lifetimeOf (update_wallet_balance db did delta).2 did = lifetimeOf db did)
    ∧ ∀ (calls : List (Nat × Int)) (x : Nat),
        lifetimeOf db x ≤
          lifetimeOf (calls.foldl (fun d c => (update_wallet_balance d c.1 c.2).2) db) x := by
  refine ⟨update_wallet_balance_fst db did delta,
    update_wallet_balance_balance_self db did delta, ?_, ?_, ?_⟩
  · intro hpos
    rw [update_wallet_balance_lifetime_self, if_pos hpos]
  · intro hneg
    rw [update_wallet_balance_lifetime_self, if_neg (by omega)]
    omega
  · intro calls
    induction calls generalizing db with
    | nil => intro x; exact le_refl _
    | cons c rest ih =>
      intro x
      exact le_trans (update_wallet_balance_lifetime_mono db c.1 x c.2)
        (ih (update_wallet_balance db c.1 c.2).2 x)

/-- C4 witness: crediting 500 to a fresh user returns balance 500 and lifts
lifetime spend by 500; then debiting 400 leaves lifetime spend unchanged. -/
theorem update_wallet_balance_spec_witness :
    (update_wallet_balance emptyDB 12345 500).1 = balanceOf emptyDB 12345 + 500
    ∧ lifetimeOf (update_wallet_balance emptyDB 12345 500).2 12345 =
        lifetimeOf emptyDB 12345 + 500
    ∧ lifetimeOf (update_wallet_balance
          (update_wallet_balance emptyDB 23456 1000).2 23456 (-400)).2 23456 =
        lifetimeOf (update_wallet_balance emptyDB 23456 1000).2 23456 :=
  ⟨(update_wallet_balance_spec emptyDB 12345 500).1,
    (update_wallet_balance_spec emptyDB 12345 500).2.2.1 (by decide),
    (update_wallet_balance_spec (update_wallet_balance emptyDB 23456 1000).2 23456
      (-400)).2.2.2.1 (by decide)⟩

/-- C3 counterexample: starting from the reachable state in which user 7 has
just been created with a zero balance, update_wallet_balance with delta -5
drives the wallet balance to -5, below zero. -/
theorem wallet_balance_can_go_negative :
    balanceOf (update_wallet_balance (ensure_user emptyDB 7).2 7 (-5)).2 7 = -5
    ∧ balanceOf (update_wallet_balance (ensure_user emptyDB 7).2 7 (-5)).2 7 < 0 := by
  exact ⟨by decide, by decide⟩

/-- C3 (amended): in a well-formed state (primary-key uniqueness of
discord_id) with no negative balance, ensure_user, purchase_product and
create_manual_order always preserve the invariant, and update_wallet_balance
preserves it exactly for deltas that keep the affected balance non-negative;
an unrestricted negative delta can drive a balance below zero. -/
theorem nonneg_balance_preservation (db : Database)
    (hinv : nonneg_balances db) (huniq : users_unique db) :
    (∀ did, nonneg_balances (ensure_user db did).2)
    ∧ (∀ did pid price pct meta,
        nonneg_balances (purchase_product db did pid price pct meta).2)
    ∧ (∀ did name price notes,
        nonneg_balances (create_manual_order db did name price notes).2)
    ∧ (∀ did delta, 0 ≤ balanceOf db did + delta →
        nonneg_balances (update_wallet_balance db did delta).2) := by
  refine ⟨fun did => nonneg_ensure did hinv, ?_, ?_, ?_⟩
  · intro did pid price pct meta
    have hinv1 := nonneg_ensure did hinv
    have huniq1 := unique_ensure did huniq
    simp only [purchase_product]
    by_cases hlt : (ensure_user db did).1.wallet_balance_cents < price
    · rw [if_pos hlt]
      exact hinv1
    · rw [if_neg hlt]
      refine @nonneg_users_eq _ (updateUser (ensure_user db did).2 did (fun v =>
        { v with
          wallet_balance_cents := v.wallet_balance_cents - price,
          total_lifetime_spent_cents := v.total_lifetime_spent_cents + price })) rfl ?_
      apply nonneg_after_updateUser _ _ hinv1 huniq1
      intro u hu
      rw [get_user_ensure_self] at hu
      injection hu with hu
      subst hu
      simp only
      omega
  · intro did name price notes
    have hinv1 := nonneg_ensure did hinv
    have huniq1 := unique_ensure did huniq
    simp only [create_manual_order]
    refine @nonneg_users_eq _ (updateUser (ensure_user db did).2 did (fun v =>
      { v with total_lifetime_spent_cents := v.total_lifetime_spent_cents + price })) rfl ?_
    apply nonneg_after_updateUser _ _ hinv1 huniq1
    intro u hu
    have hmem := List.mem_of_find?_eq_some hu
    exact hinv1 u hmem
  · intro did delta h0
    simp only [update_wallet_balance]
    apply nonneg_after_updateUser _ _ (nonneg_ensure did hinv) (unique_ensure did huniq)
    intro u hu
    rw [get_user_ensure_self] at hu
    injection hu with hu
    subst hu
    simp only
    rw [ensure_user_fst_balance]
    exact h0

/-- C3 (amended) witness: from the empty database, creating user 7 and then
crediting 5 cents both keep every balance non-negative. -/
theorem nonneg_balance_preservation_witness :
    nonneg_balances (ensure_user emptyDB 7).2
    ∧ nonneg_balances (update_wallet_balance emptyDB 7 5).2 :=
  have h := nonneg_balance_preservation emptyDB
    (by intro u hu; simp [emptyDB] at hu) (by simp [users_unique, emptyDB])
  ⟨h.1 7, h.2.2.2 7 5 (by decide)⟩

theorem create_manual_order_eq {db : Database} {did : Nat} {u : User}
    (name : String) (price : Int) (notes : String) (h : get_user db did = some u) :
    create_manual_order db did name price notes =
      ((db.next_order_id, u.total_lifetime_spent_cents + price),
        { updateUser db did (fun v =>
            { v with total_lifetime_spent_cents := v.total_lifetime_spent_cents + price }) with
          orders := db.orders ++
            [⟨db.next_order_id, did, 0, price, 0, OrderMeta.manual name notes⟩],
          next_order_id := db.next_order_id + 1 }) := by
  simp only [create_manual_order, ensure_user_found h]
  rfl

/-- C7: create_manual_order records a non-catalog order with product_id 0
and JSON metadata carrying manual_order = true, the given product name and
the given notes; it adds price_paid_cents to total_lifetime_spent_cents,
returns the order id with the new lifetime total, and leaves
wallet_balance_cents unchanged. -/
theorem create_manual_order_spec (db : Database) (did : Nat) (name : String) (price : Int)
    (notes : String) (u : User) (h : get_user db did = some u) :
    ∃ oid newLifetime,
      (create_manual_order db did name price notes).1 = (oid, newLifetime)
      ∧ oid = db.next_order_id
      ∧ newLifetime = u.total_lifetime_spent_cents + price
      ∧ lifetimeOf (create_manual_order db did name price notes).2 did = newLifetime
      ∧ balanceOf (create_manual_order db did name price notes).2 did = balanceOf db did
      ∧ (create_manual_order db did name price notes).2.orders =
          db.orders ++ [⟨oid, did, 0, price, 0, OrderMeta.manual name notes⟩]
      ∧ (OrderMeta.manual name notes).manual_order = true
      ∧ (OrderMeta.manual name notes).product_name = some name
      ∧ (OrderMeta.manual name notes).notes = some notes := by
  have heq := create_manual_order_eq name price notes h
  refine ⟨db.next_order_id, u.total_lifetime_spent_cents + price, ?_, rfl, rfl, ?_, ?_, ?_,
    rfl, rfl, rfl⟩
  · rw [heq]
  · rw [heq]
    have hl : lifetimeOf
        { updateUser db did (fun v =>
            { v with total_lifetime_spent_cents := v.total_lifetime_spent_cents + price }) with
          orders := db.orders ++
            [⟨db.next_order_id, did, 0, price, 0, OrderMeta.manual name notes⟩],
          next_order_id := db.next_order_id + 1 } did =
        lifetimeOf (updateUser db did (fun v =>
          { v with total_lifetime_spent_cents := v.total_lifetime_spent_cents + price })) did :=
      lifetimeOf_users_eq rfl did
    have h2 := lifetimeOf_updateUser_self db did (fun v =>
      { v with total_lifetime_spent_cents := v.total_lifetime_spent_cents + price })
      (fun v => rfl) h
    rw [hl, h2]
  · rw [heq]
    have hb : balanceOf
        { updateUser db did (fun v =>
            { v with total_lifetime_spent_cents := v.total_lifetime_spent_cents + price }) with
          orders := db.orders ++
            [⟨db.next_order_id, did, 0, price, 0, OrderMeta.manual name notes⟩],
          next_order_id := db.next_order_id + 1 } did =
        balanceOf (updateUser db did (fun v =>
          { v with total_lifetime_spent_cents := v.total_lifetime_spent_cents + price })) did :=
      balanceOf_users_eq rfl did
    have h2 := balanceOf_updateUser_self db did (fun v =>
      { v with total_lifetime_spent_cents := v.total_lifetime_spent_cents + price })
      (fun v => rfl) h
    rw [hb, h2, balanceOf_eq_of_get h]
  · rw [heq]

/-- C7 witness: a manual order of 400 cents for a user with 1000 cents of
balance and lifetime spend lifts lifetime spend to 1400 and keeps the
balance at 1000. -/
theorem create_manual_order_spec_witness :
    ∃ oid newLifetime,
      (create_manual_order (update_wallet_balance emptyDB 78901 1000).2 78901
          "Support Package" 400 "Manual entry").1 = (oid, newLifetime)
      ∧ oid = (update_wallet_balance emptyDB 78901 1000).2.next_order_id
      ∧ newLifetime = (1000 : Int) + 400
      ∧ lifetimeOf (create_manual_order (update_wallet_balance emptyDB 78901 1000).2 78901
          "Support Package" 400 "Manual entry").2 78901 = newLifetime
      ∧ balanceOf (create_manual_order (update_wallet_balance emptyDB 78901 1000).2 78901
          "Support Package" 400 "Manual entry").2 78901 =
          balanceOf (update_wallet_balance emptyDB 78901 1000).2 78901
      ∧ (create_manual_order (update_wallet_balance emptyDB 78901 1000).2 78901
          "Support Package" 400 "Manual entry").2.orders =
          (update_wallet_balance emptyDB 78901 1000).2.orders ++
            [⟨oid, 78901, 0, 400, 0, OrderMeta.manual "Support Package" "Manual entry"⟩]
      ∧ (OrderMeta.manual "Support Package" "Manual entry").manual_order = true
      ∧ (OrderMeta.manual "Support Package" "Manual entry").product_name =
          some "Support Package"
      ∧ (OrderMeta.manual "Support Package" "Manual entry").notes = some "Manual entry" :=
  create_manual_order_spec (update_wallet_balance emptyDB 78901 1000).2 78901
    "Support Package" 400 "Manual entry" ⟨78901, 1000, 1000⟩ (by decide)

/-- C5: get_applicable_discounts returns exactly the matching rows whose
expiry has not passed, comparing the expires_at timestamp string to the
current time: a past expires_at is never returned and an otherwise matching
future expires_at is returned. -/
theorem get_applicable_discounts_filter_spec (db : Database) (uid pid : Option Nat)
    (vip : Option String) (now : String) (d : Discount) (t : String) :
    (d ∈ get_applicable_discounts db uid pid vip now ↔
      d ∈ db.discounts ∧ discount_matches d uid pid vip = true
        ∧ discount_active d now = true)
    ∧ (d.expires_at = some t → str_lt now t = false →
        d ∉ get_applicable_discounts db uid pid vip now)
    ∧ (d ∈ db.discounts → discount_matches d uid pid vip = true → d.expires_at = some t →
        str_lt now t = true → d ∈ get_applicable_discounts db uid pid vip now) := by
  have hmem : d ∈ get_applicable_discounts db uid pid vip now ↔
      d ∈ db.discounts ∧ discount_matches d uid pid vip = true
        ∧ discount_active d now = true := by
    unfold get_applicable_discounts
    rw [List.mem_insertionSort, List.mem_filter]
    simp
  refine ⟨hmem, ?_, ?_⟩
  · intro ht hnlt hd
    rcases hmem.mp hd with ⟨-, -, hact⟩
    unfold discount_active at hact
    rw [ht] at hact
    have hs : str_lt now t = true := by simpa using hact
    rw [hnlt] at hs
    exact absurd hs (by simp)
  · intro hd hm ht hlt
    refine hmem.mpr ⟨hd, hm, ?_⟩
    unfold discount_active
    rw [ht]
    simpa using hlt

/-- C5 witness: with one discount expiring tomorrow and one that expired
yesterday, only the former is applicable, and the latter is excluded. -/
theorem get_applicable_discounts_filter_spec_witness :
    ((⟨1, some 1, none, none, 15, "Active", some "2025-01-02 00:00:00"⟩ : Discount) ∈
      get_applicable_discounts
        (set_discount (set_discount emptyDB (some 1) none none 15 "Active"
          (some "2025-01-02 00:00:00")).2 (some 1) none none 50 "Expired"
          (some "2024-12-31 00:00:00")).2
        (some 1) none none "2025-01-01 00:00:00")
    ∧ ((⟨2, some 1, none, none, 50, "Expired", some "2024-12-31 00:00:00"⟩ : Discount) ∉
      get_applicable_discounts
        (set_discount (set_discount emptyDB (some 1) none none 15 "Active"
          (some "2025-01-02 00:00:00")).2 (some 1) none none 50 "Expired"
          (some "2024-12-31 00:00:00")).2
        (some 1) none none "2025-01-01 00:00:00") :=
  ⟨(get_applicable_discounts_filter_spec
      (set_discount (set_discount emptyDB (some 1) none none 15 "Active"
        (some "2025-01-02 00:00:00")).2 (some 1) none none 50 "Expired"
        (some "2024-12-31 00:00:00")).2
      (some 1) none none "2025-01-01 00:00:00"
      ⟨1, some 1, none, none, 15, "Active", some "2025-01-02 00:00:00"⟩
      "2025-01-02 00:00:00").2.2 (by decide) (by decide) rfl (by decide),
    (get_applicable_discounts_filter_spec
      (set_discount (set_discount emptyDB (some 1) none none 15 "Active"
        (some "2025-01-02 00:00:00")).2 (some 1) none none 50 "Expired"
        (some "2024-12-31 00:00:00")).2
      (some 1) none none "2025-01-01 00:00:00"
      ⟨2, some 1, none, none, 50, "Expired", some "2024-12-31 00:00:00"⟩
      "2024-12-31 00:00:00").2.1 rfl (by decide)⟩

theorem strltb_irrefl : ∀ u : List Char, strltb u u = false := by
  intro u
  induction u with
  | nil => rfl
  | cons x xs ih => simp [strltb, ih]

/-- C6: the rows returned by get_applicable_discounts are ordered by the
percent/expiry relation stored in the query, so the first returned row wins
against every returned row. -/
theorem get_applicable_discounts_sorted (db : Database) (uid pid : Option Nat)
    (vip : Option String) (now : String) :
    List.Sorted discountBefore (get_applicable_discounts db uid pid vip now)
    ∧ ∀ h d, (get_applicable_discounts db uid pid vip now).head? = some h →
        d ∈ get_applicable_discounts db uid pid vip now → discountBefore h d := by
  have hsorted : List.Sorted discountBefore (get_applicable_discounts db uid pid vip now) :=
    List.sorted_insertionSort discountBefore _
  refine ⟨hsorted, ?_⟩
  intro h d hh hd
  cases hres : get_applicable_discounts db uid pid vip now with
  | nil =>
    rw [hres] at hh
    exact absurd hh (by simp)
  | cons a tl =>
    rw [hres] at hh hd hsorted
    have ha : a = h := by simpa using hh
    subst ha
    rcases List.mem_cons.mp hd with hdh | hdt
    · subst hdh
      exact Or.inr ⟨rfl, by simp [str_le, strltb_irrefl]⟩
    · exact List.rel_of_sorted_cons hsorted d hdt

/-- C6 witness: with two active discounts of 15 and 12 percent, the result
is sorted and its head (the 15 percent row) wins against the 12 percent
row. -/
theorem get_applicable_discounts_sorted_witness :
    List.Sorted discountBefore
      (get_applicable_discounts
        (set_discount (set_discount emptyDB (some 1) none none 15 "First"
          (some "2025-01-02 00:00:00")).2 (some 1) none none 12 "Second"
          (some "2025-01-03 00:00:00")).2
        (some 1) none none "2025-01-01 00:00:00")
    ∧ discountBefore ⟨1, some 1, none, none, 15, "First", some "2025-01-02 00:00:00"⟩
        ⟨2, some 1, none, none, 12, "Second", some "2025-01-03 00:00:00"⟩ :=
  have hc := get_applicable_discounts_sorted
    (set_discount (set_discount emptyDB (some 1) none none 15 "First"
      (some "2025-01-02 00:00:00")).2 (some 1) none none 12 "Second"
      (some "2025-01-03 00:00:00")).2
    (some 1) none none "2025-01-01 00:00:00"
  ⟨hc.1, hc.2 ⟨1, some 1, none, none, 15, "First", some "2025-01-02 00:00:00"⟩
    ⟨2, some 1, none, none, 12, "Second", some "2025-01-03 00:00:00"⟩
    (by decide) (by decide)⟩

/-! Helper lemmas about ticket lookup. -/

theorem get_ticket_channel_id {db : Database} {ch : Nat} {t : Ticket}
    (h : get_ticket_by_channel db ch = some t) : t.channel_id = ch := by
  simpa using List.find?_some h

theorem get_ticket_by_channel_update_status (db : Database) (ch : Nat) (st : String) (x : Nat) :
    get_ticket_by_channel (update_ticket_status db ch st) x =
      (get_ticket_by_channel db x).map
        (fun t => if t.channel_id == ch then { t with status := st } else t) := by
  unfold get_ticket_by_channel update_ticket_status
  exact find_map_pred _ _ (fun t => by by_cases hh : t.channel_id = ch <;> simp [hh]) _

theorem get_ticket_by_channel_update_ticket (db : Database) (ch : Nat)
    (ty : Option String) (oid : Option Nat) (staff : Option Nat) (pri cl : Option String)
    (x : Nat) :
    get_ticket_by_channel (update_ticket db ch ty oid staff pri cl) x =
      (get_ticket_by_channel db x).map
        (fun t => if t.channel_id == ch then
          { t with
            type := ty.getD t.type,
            order_id := overrideOpt oid t.order_id,
            assigned_staff_id := overrideOpt staff t.assigned_staff_id,
            priority := overrideOpt pri t.priority,
            closed_at := overrideOpt cl t.closed_at }
        else t) := by
  unfold get_ticket_by_channel update_ticket
  exact find_map_pred _ _ (fun t => by by_cases hh : t.channel_id = ch <;> simp [hh]) _

/-- C10: update_ticket_status changes only the status field of the ticket in
the channel (every other ticket field keeps its previous value), and
update_ticket applied to any subset of the other fields leaves status (and
the identifying fields) unchanged. -/
theorem update_ticket_status_frame (db : Database) (ch : Nat) (st : String) (t : Ticket)
    (h : get_ticket_by_channel db ch = some t) :
    get_ticket_by_channel (update_ticket_status db ch st) ch = some { t with status := st }
    ∧ ∀ ty oid staff pri cl, ∃ t2,
        get_ticket_by_channel (update_ticket db ch ty oid staff pri cl) ch = some t2
        ∧ t2.status = t.status ∧ t2.id = t.id ∧ t2.user_discord_id = t.user_discord_id
        ∧ t2.channel_id = t.channel_id := by
  have hch : t.channel_id = ch := get_ticket_channel_id h
  constructor
  · rw [get_ticket_by_channel_update_status, h]
    simp [hch]
  · intro ty oid staff pri cl
    refine ⟨{ t with
      type := ty.getD t.type,
      order_id := overrideOpt oid t.order_id,
      assigned_staff_id := overrideOpt staff t.assigned_staff_id,
      priority := overrideOpt pri t.priority,
      closed_at := overrideOpt cl t.closed_at }, ?_, rfl, rfl, rfl, rfl⟩
    rw [get_ticket_by_channel_update_ticket, h]
    simp [hch]

/-- C10 witness: on a billing ticket with staff 999 and priority high,
setting the status to resolved keeps type, staff and priority, and an
update_ticket call on the type field keeps the status open. -/
theorem update_ticket_status_frame_witness :
    get_ticket_by_channel
        (update_ticket_status (create_ticket emptyDB 177777 188888 "open" "billing" none
          (some 999) (some "high")).2 188888 "resolved") 188888 =
      some ⟨1, 177777, 188888, "resolved", "billing", none, some 999, some "high", none⟩
    ∧ ∃ t2, get_ticket_by_channel (update_ticket (create_ticket emptyDB 177777 188888 "open"
        "billing" none (some 999) (some "high")).2 188888 (some "sales") none none none none)
        188888 = some t2 ∧ t2.status = "open" :=
  have hc := update_ticket_status_frame (create_ticket emptyDB 177777 188888 "open" "billing"
    none (some 999) (some "high")).2 188888 "resolved"
    ⟨1, 177777, 188888, "open", "billing", none, some 999, some "high", none⟩ (by decide)
  ⟨hc.1, by
    rcases hc.2 (some "sales") none none none none with ⟨t2, hget, hst, -, -, -⟩
    exact ⟨t2, hget, hst⟩⟩

/-- C8: orders are linked to support tickets through the tickets table: a
ticket row carries an order_id column that defaults to NULL at create_ticket,
can be set at creation or later through update_ticket, and
get_ticket_by_order_id retrieves the ticket linked to a given order. -/
theorem ticket_order_link_spec (db : Database) (uid ch : Nat) :
    (get_ticket_by_channel db ch = none →
      get_ticket_by_channel (create_ticket_defaults db uid ch).2 ch =
        some ⟨db.next_ticket_id, uid, ch, "open", "support", none, none, none, none⟩)
    ∧ (∀ st ty oid staff pri, get_ticket_by_channel db ch = none →
        get_ticket_by_channel (create_ticket db uid ch st ty (some oid) staff pri).2 ch =
          some ⟨db.next_ticket_id, uid, ch, st, ty, some oid, staff, pri, none⟩)
    ∧ (∀ t oid, get_ticket_by_channel db ch = some t →
        ∃ t2, get_ticket_by_channel (update_ticket db ch none (some oid) none none none) ch =
            some t2
          ∧ t2.order_id = some oid)
    ∧ (∀ oid t, get_ticket_by_order_id db oid = some t →
        t ∈ db.tickets ∧ t.order_id = some oid)
    ∧ (∀ oid, (∃ t ∈ db.tickets, t.order_id = some oid) →
        ∃ t2, get_ticket_by_order_id db oid = some t2 ∧ t2.order_id = some oid) := by
  refine ⟨?_, ?_, ?_, ?_, ?_⟩
  · intro h0
    unfold get_ticket_by_channel at h0 ⊢
    simp only [create_ticket_defaults, create_ticket]
    rw [List.find?_append, h0]
    simp [List.find?]
  · intro st ty oid staff pri h0
    unfold get_ticket_by_channel at h0 ⊢
    simp only [create_ticket]
    rw [List.find?_append, h0]
    simp [List.find?]
  · intro t oid h
    have hch : t.channel_id = ch := get_ticket_channel_id h
    refine ⟨{ t with
      type := (none : Option String).getD t.type,
      order_id := overrideOpt (some oid) t.order_id,
      assigned_staff_id := overrideOpt none t.assigned_staff_id,
      priority := overrideOpt none t.priority,
      closed_at := overrideOpt none t.closed_at }, ?_, rfl⟩
    rw [get_ticket_by_channel_update_ticket, h]
    simp [hch]
  · intro oid t h
    exact ⟨List.mem_of_find?_eq_some h, by simpa using List.find?_some h⟩
  · intro oid hex
    rcases hex with ⟨t, ht, hoid⟩
    cases hfind : get_ticket_by_order_id db oid with
    | some t2 => exact ⟨t2, rfl, by simpa using List.find?_some hfind⟩
    | none =>
      have := List.find?_eq_none.mp hfind t ht
      simp [hoid] at this

/-- C8 witness: order_id defaults to NULL, is recorded at creation, settable
later by update_ticket, and get_ticket_by_order_id finds the linked ticket. -/
theorem ticket_order_link_spec_witness :
    get_ticket_by_channel (create_ticket_defaults emptyDB 111111 122222).2 122222 =
      some ⟨1, 111111, 122222, "open", "support", none, none, none, none⟩
    ∧ get_ticket_by_channel
        (create_ticket emptyDB 33333 44444 "open" "billing" (some 999) (some 555)
          (some "high")).2 44444 =
      some ⟨1, 33333, 44444, "open", "billing", some 999, some 555, some "high", none⟩
    ∧ (∃ t2, get_ticket_by_channel
        (update_ticket (create_ticket_defaults emptyDB 111111 122222).2 122222 none
          (some 1234) none none none) 122222 = some t2 ∧ t2.order_id = some 1234)
    ∧ ((⟨1, 33333, 44444, "open", "billing", some 999, some 555, some "high", none⟩ : Ticket) ∈
        (create_ticket emptyDB 33333 44444 "open" "billing" (some 999) (some 555)
          (some "high")).2.tickets
      ∧ (⟨1, 33333, 44444, "open", "billing", some 999, some 555, some "high",
          none⟩ : Ticket).order_id = some 999)
    ∧ (∃ t2, get_ticket_by_order_id
        (create_ticket emptyDB 33333 44444 "open" "billing" (some 999) (some 555)
          (some "high")).2 999 = some t2 ∧ t2.order_id = some 999) :=
  have h1 := ticket_order_link_spec emptyDB 111111 122222
  have h2 := ticket_order_link_spec emptyDB 33333 44444
  have h3 := ticket_order_link_spec (create_ticket_defaults emptyDB 111111 122222).2 111111 122222
  have h4 := ticket_order_link_spec
    (create_ticket emptyDB 33333 44444 "open" "billing" (some 999) (some 555) (some "high")).2
    33333 44444
  ⟨h1.1 (by decide),
    h2.2.1 "open" "billing" 999 (some 555) (some "high") (by decide),
    h3.2.2.1 ⟨1, 111111, 122222, "open", "support", none, none, none, none⟩ 1234 (by decide),
    h4.2.2.2.1 999 ⟨1, 33333, 44444, "open", "billing", some 999, some 555, some "high", none⟩
      (by decide),
    h4.2.2.2.2 999 ⟨⟨1, 33333, 44444, "open", "billing", some 999, some 555, some "high", none⟩,
      by decide, rfl⟩⟩

/-! Helper lemmas about the pagination of /orders and /transactions. -/

theorem ceil_div_per_page (n : ℕ) :
    (n + per_page - 1) / per_page = Nat.ceil ((n : ℚ) / (per_page : ℚ)) := by
  unfold per_page
  apply le_antisymm
  · have h2 : (n : ℚ) / 10 ≤ (Nat.ceil ((n : ℚ) / 10) : ℚ) := Nat.le_ceil _
    rw [div_le_iff (by norm_num : (0:ℚ) < 10)] at h2
    have h3 : n ≤ Nat.ceil ((n : ℚ) / 10) * 10 := by exact_mod_cast h2
    push_cast
    omega
  · apply Nat.ceil_le.mpr
    push_cast
    rw [div_le_iff (by norm_num : (0:ℚ) < 10)]
    have h4 : n ≤ (n + 10 - 1) / 10 * 10 := by omega
    exact_mod_cast h4

theorem paginate_clamp {α : Type} (l : List α) (p : Int) (hp : p < 1) :
    paginate l p = paginate l 1 := by
  simp only [paginate]
  rw [if_pos hp, if_neg (by omega : ¬ (1:Int) < 1)]

theorem paginate_pageView {α : Type} {l : List α} {p pg : Int} {tp : Nat} {shown : List α}
    (h : paginate l p = PageReply.pageView pg tp shown) :
    shown = (l.drop ((p - 1) * (per_page : Int)).toNat).take per_page
    ∧ tp = (l.length + per_page - 1) / per_page := by
  have hoff : (((if p < 1 then 1 else p) - 1) * (per_page : Int)).toNat =
      ((p - 1) * (per_page : Int)).toNat := by
    unfold per_page
    by_cases hp : p < 1
    · rw [if_pos hp]
      omega
    · rw [if_neg hp]
  simp only [paginate] at h
  by_cases hsE :
      ((l.drop (((if p < 1 then 1 else p) - 1) * (per_page : Int)).toNat).take
        per_page).isEmpty = true
  · rw [if_pos hsE] at h
    split at h
    · simp at h
    · split at h <;> simp at h
  · rw [if_neg hsE] at h
    cases h
    exact ⟨by rw [hoff], rfl⟩

theorem paginate_empty_page {α : Type} (l : List α) (p : Int) (h2 : 2 ≤ p)
    (hlen : (l.length : Int) ≤ (p - 1) * (per_page : Int)) :
    paginate l p = PageReply.emptyPage p := by
  have hp : ¬ p < 1 := by omega
  have hdrop : l.drop ((p - 1) * (per_page : Int)).toNat = [] := by
    apply List.drop_eq_nil_of_le
    unfold per_page at hlen ⊢
    omega
  simp only [paginate]
  rw [if_neg hp, hdrop]
  simp only [List.take_nil, List.isEmpty_nil, if_true]
  rw [if_neg (by simp only [beq_iff_eq]; omega : ¬ (p == 1) = true)]

/-- C9: for /orders and /transactions, a page argument below 1 acts as page
1, a page shows at most 10 items taken at offset (page-1)*10, the reported
page count is the ceiling of the item count divided by 10, and a page beyond
the data yields the empty "No ... on page N" reply instead of an error. -/
theorem pagination_spec {α : Type} (l : List α) (p : Int) :
    (p < 1 → orders_command l p = orders_command l 1
      ∧ transactions_command l p = transactions_command l 1)
    ∧ (∀ pg tp shown, orders_command l p = PageReply.pageView pg tp shown →
        shown = (l.drop ((p - 1) * (per_page : Int)).toNat).take per_page
        ∧ shown.length ≤ per_page
        ∧ tp = (l.length + per_page - 1) / per_page
        ∧ tp = Nat.ceil ((l.length : ℚ) / (per_page : ℚ)))
    ∧ (∀ pg tp shown, transactions_command l p = PageReply.pageView pg tp shown →
        shown = (l.drop ((p - 1) * (per_page : Int)).toNat).take per_page
        ∧ tp = Nat.ceil ((l.length : ℚ) / (per_page : ℚ)))
    ∧ (2 ≤ p → (l.length : Int) ≤ (p - 1) * (per_page : Int) →
        orders_command l p = PageReply.emptyPage p
        ∧ transactions_command l p = PageReply.emptyPage p) := by
  refine ⟨fun hp => ⟨paginate_clamp l p hp, paginate_clamp l p hp⟩, ?_, ?_,
    fun h2 hlen => ⟨paginate_empty_page l p h2 hlen, paginate_empty_page l p h2 hlen⟩⟩
  · intro pg tp shown h
    rcases paginate_pageView h with ⟨hs, ht⟩
    refine ⟨hs, ?_, ht, by rw [ht, ceil_div_per_page]⟩
    rw [hs, List.length_take]
    exact min_le_left _ _
  · intro pg tp shown h
    rcases paginate_pageView h with ⟨hs, ht⟩
    exact ⟨hs, by rw [ht, ceil_div_per_page]⟩

/-- C9 witness: with two items, page 0 acts as page 1, page 1 shows both
items with a page count of 1, and page 2 answers the empty-page reply. -/
theorem pagination_spec_witness :
    (orders_command [5, 6] (0 : Int) = orders_command [5, 6] 1
      ∧ transactions_command [5, 6] (0 : Int) = transactions_command [5, 6] 1)
    ∧ (([5, 6] : List Nat) =
          (([5, 6] : List Nat).drop (((1 : Int) - 1) * (per_page : Int)).toNat).take per_page
        ∧ ([5, 6] : List Nat).length ≤ per_page
        ∧ 1 = (([5, 6] : List Nat).length + per_page - 1) / per_page
        ∧ 1 = Nat.ceil (((([5, 6] : List Nat).length) : ℚ) / (per_page : ℚ)))
    ∧ (orders_command [5, 6] (2 : Int) = PageReply.emptyPage 2
        ∧ transactions_command [5, 6] (2 : Int) = PageReply.emptyPage 2) :=
  ⟨(pagination_spec [5, 6] 0).1 (by decide),
    (pagination_spec [5, 6] 1).2.1 1 1 [5, 6] (by decide),
    (pagination_spec [5, 6] 2).2.2.2 (by decide) (by decide)⟩
